import Mathlib

/-!
Shallow embedding of the aws-data-backup-pipeline repository
(src/src/backup_manager.py and src/src/restore_manager.py).

Modelling conventions:
* Provider state (the snapshots AWS holds) is an explicit `AWSState`.
* Provider calls that the Python code wraps in try/except are modelled as
  `Except String` oracles, or as boolean failure-injection functions for
  delete/copy calls.
* Timestamps (`datetime`) are `Int` values on one uniform timeline; the
  Python comparisons `<` on datetimes, and the lexicographic comparison
  of equal-format ISO strings used for sorting, correspond to `<`/`≤` on
  these integers. `timedelta(days=retention_days)` becomes subtraction.
* Each Python function is translated to a Lean function of the same name;
  the list-iteration order of the source is preserved.
-/

/-- An AWS tag key/value pair (element of `Tags`/`TagList` in the source). -/
structure Tag where
  key : String
  value : String
deriving DecidableEq, Repr

/-- The tag filter used by cleanup and listing in the source:
`any(tag.get('Key') == 'AutomatedBackup' and tag.get('Value') == 'true' for tag in ...)`. -/
def hasAutomatedBackupTag (tags : List Tag) : Bool :=
  tags.any (fun t => t.key == "AutomatedBackup" && t.value == "true")

/-- An EC2 EBS snapshot as reported by `describe_snapshots`. -/
structure EC2Snapshot where
  snapshotId : String
  startTime : Int
  tags : List Tag
  state : String
  volumeSize : Nat
  description : String
  progress : String
  encrypted : Bool
deriving DecidableEq, Repr

/-- An RDS DB snapshot as reported by `describe_db_snapshots`. -/
structure RDSSnapshot where
  dbSnapshotIdentifier : String
  snapshotCreateTime : Int
  tagList : List Tag
  status : String
  dbInstanceIdentifier : String
  engine : String
  percentProgress : Nat
  encrypted : Bool
deriving DecidableEq, Repr

/-- The provider-held snapshot state observed and mutated by the pipeline. -/
structure AWSState where
  ec2Snapshots : List EC2Snapshot
  rdsSnapshots : List RDSSnapshot
deriving DecidableEq, Repr

/-- `cleanup_old_backups` EC2 deletion condition:
`snapshot.StartTime < cutoff_date and any(AutomatedBackup=true tag)`. -/
def ec2Expired (cutoff : Int) (s : EC2Snapshot) : Bool :=
  decide (s.startTime < cutoff) && hasAutomatedBackupTag s.tags

/-- `cleanup_old_backups` RDS deletion condition:
`snapshot.SnapshotCreateTime < cutoff_date and any(AutomatedBackup=true tag)`. -/
def rdsExpired (cutoff : Int) (s : RDSSnapshot) : Bool :=
  decide (s.snapshotCreateTime < cutoff) && hasAutomatedBackupTag s.tagList

/-- Result dict of `cleanup_old_backups`; the source initialises exactly these
three keys and never adds an error key. -/
structure CleanupResult where
  ec2_snapshots_deleted : Nat
  rds_snapshots_deleted : Nat
  s3_objects_deleted : Nat
deriving DecidableEq, Repr

/-- The EC2 loop of `cleanup_old_backups`: walk the snapshots in order, delete
each expired tagged one (`delete_snapshot` may raise, modelled by
`deleteFails`), counting deletions.  Returns (count, snapshots kept, whether a
delete raised, aborting the whole cleanup `try` block). -/
def cleanupEC2Loop (cutoff : Int) (deleteFails : String → Bool) :
    List EC2Snapshot → Nat × List EC2Snapshot × Bool
  | [] => (0, [], false)
  | s :: rest =>
    if ec2Expired cutoff s then
      if deleteFails s.snapshotId then
        (0, s :: rest, true)
      else
        let r := cleanupEC2Loop cutoff deleteFails rest
        (r.1 + 1, r.2.1, r.2.2)
    else
      let r := cleanupEC2Loop cutoff deleteFails rest
      (r.1, s :: r.2.1, r.2.2)

/-- The RDS loop of `cleanup_old_backups`, same shape as the EC2 loop. -/
def cleanupRDSLoop (cutoff : Int) (deleteFails : String → Bool) :
    List RDSSnapshot → Nat × List RDSSnapshot × Bool
  | [] => (0, [], false)
  | s :: rest =>
    if rdsExpired cutoff s then
      if deleteFails s.dbSnapshotIdentifier then
        (0, s :: rest, true)
      else
        let r := cleanupRDSLoop cutoff deleteFails rest
        (r.1 + 1, r.2.1, r.2.2)
    else
      let r := cleanupRDSLoop cutoff deleteFails rest
      (r.1, s :: r.2.1, r.2.2)

/-- `BackupManager.cleanup_old_backups`.  `cutoff_date = now - retention_days`;
the EC2 phase runs first, and an exception anywhere inside the shared `try`
(modelled here as a failing delete call) skips the rest of the block; the
partial result dict is returned either way, with no error key.  Returns the
result dict together with the provider state after the performed deletions. -/
def cleanup_old_backups (now retention_days : Int)
    (deleteFailsE deleteFailsR : String → Bool) (st : AWSState) :
    CleanupResult × AWSState :=
  let cutoff := now - retention_days
  let e := cleanupEC2Loop cutoff deleteFailsE st.ec2Snapshots
  if e.2.2 then
    (⟨e.1, 0, 0⟩, ⟨e.2.1, st.rdsSnapshots⟩)
  else
    let r := cleanupRDSLoop cutoff deleteFailsR st.rdsSnapshots
    (⟨e.1, r.1, 0⟩, ⟨e.2.1, r.2.1⟩)

/-- A delete oracle that never raises. -/
def noDeleteFailure : String → Bool := fun _ => false

/-- The `TagSpecifications` passed to `create_snapshot` in `backup_ec2_instances`. -/
def ec2SnapshotTags (instanceId volumeId backupDate : String) : List Tag :=
  [⟨"Name", "backup-" ++ instanceId ++ "-" ++ volumeId⟩,
   ⟨"InstanceId", instanceId⟩,
   ⟨"BackupDate", backupDate⟩,
   ⟨"AutomatedBackup", "true"⟩]

/-- The `Tags` passed to `create_db_snapshot` in `backup_rds_databases`. -/
def rdsSnapshotTags (backupDate dbIdentifier : String) : List Tag :=
  [⟨"BackupDate", backupDate⟩,
   ⟨"AutomatedBackup", "true"⟩,
   ⟨"SourceDB", dbIdentifier⟩]

/-- The `Tagging` string passed to `copy_object` in `backup_s3_buckets`:
`'BackupDate=' + ... + '&SourceBucket=' + bucket_name`, decoded to pairs. -/
def s3CopyTags (backupDate sourceBucket : String) : List Tag :=
  [⟨"BackupDate", backupDate⟩, ⟨"SourceBucket", sourceBucket⟩]

/-- An EC2 instance as returned by `describe_instances`: its id and the
volume ids of its `BlockDeviceMappings`. -/
structure EC2Instance where
  instanceId : String
  volumeIds : List String
deriving DecidableEq, Repr

/-- An entry of `results['success']` in `backup_ec2_instances`. -/
structure EC2SuccessRecord where
  instance_id : String
  volume_id : String
  snapshot_id : String
deriving DecidableEq, Repr

/-- An entry of `results['failed']` in `backup_ec2_instances`; the batch-level
entry `{'error': str(e)}` carries no instance id. -/
structure EC2FailureRecord where
  instance_id : Option String
  error : String
deriving DecidableEq, Repr

/-- The `{'success': [...], 'failed': [...]}` result dict of the batch
backup operations. -/
structure BackupResults (σ φ : Type) where
  success : List σ
  failed : List φ
deriving DecidableEq, Repr

/-- `describe_instances(InstanceIds=ids)`: AWS raises for the whole call if
any requested id does not exist; otherwise all instances are returned. -/
def describeInstancesBulk (tbl : String → Option EC2Instance) :
    List String → Except String (List EC2Instance)
  | [] => .ok []
  | id :: rest =>
    match tbl id with
    | none => .error ("InvalidInstanceID.NotFound: " ++ id)
    | some inst =>
      match describeInstancesBulk tbl rest with
      | .ok insts => .ok (inst :: insts)
      | .error e => .error e

/-- The two resolution paths of `backup_ec2_instances`: explicit ids (one bulk
`describe_instances(InstanceIds=...)` call) or discovery of running
instances (whose outcome is the provider's). -/
inductive EC2Targets where
  | explicitIds (tbl : String → Option EC2Instance) (ids : List String)
  | discoverRunning (described : Except String (List EC2Instance))

def resolveEC2Targets : EC2Targets → Except String (List EC2Instance)
  | .explicitIds tbl ids => describeInstancesBulk tbl ids
  | .discoverRunning d => d

/-- The inner loop of `backup_ec2_instances` for one instance: one
`create_snapshot` call per volume, all inside one per-instance `try`; the
first raising call records one failure for the instance and abandons its
remaining volumes.  Returns successes, failure entries, created snapshots. -/
def backupVolumes (createSnap : String → String → Except String String)
    (now : Int) (backupDate : String) (instId : String) :
    List String → List EC2SuccessRecord × List EC2FailureRecord × List EC2Snapshot
  | [] => ([], [], [])
  | v :: vs =>
    match createSnap instId v with
    | .ok snapId =>
      let r := backupVolumes createSnap now backupDate instId vs
      (⟨instId, v, snapId⟩ :: r.1,
       r.2.1,
       ⟨snapId, now, ec2SnapshotTags instId v backupDate, "pending", 0,
        "Automated backup of " ++ instId ++ " - " ++ backupDate, "0%", false⟩ :: r.2.2)
    | .error e => ([], [⟨some instId, e⟩], [])

def ec2BackupLoop (createSnap : String → String → Except String String)
    (now : Int) (backupDate : String) :
    List EC2Instance → List EC2SuccessRecord × List EC2FailureRecord × List EC2Snapshot
  | [] => ([], [], [])
  | inst :: rest =>
    let a := backupVolumes createSnap now backupDate inst.instanceId inst.volumeIds
    let b := ec2BackupLoop createSnap now backupDate rest
    (a.1 ++ b.1, a.2.1 ++ b.2.1, a.2.2 ++ b.2.2)

/-- Result of a batch backup operation together with the artifacts the
provider calls created (for stating tag invariants). -/
structure EC2BackupOutput where
  results : BackupResults EC2SuccessRecord EC2FailureRecord
  created : List EC2Snapshot
deriving Repr

/-- `BackupManager.backup_ec2_instances`: resolve targets (a failure there is
the batch-level `except` and yields one id-less failure entry), then snapshot
every volume of every instance. -/
def backup_ec2_instances (targets : EC2Targets)
    (createSnap : String → String → Except String String)
    (now : Int) (backupDate : String) : EC2BackupOutput :=
  match resolveEC2Targets targets with
  | .error e => ⟨⟨[], [⟨none, e⟩]⟩, []⟩
  | .ok insts =>
    let r := ec2BackupLoop createSnap now backupDate insts
    ⟨⟨r.1, r.2.1⟩, r.2.2⟩

def totalVolumes (insts : List EC2Instance) : Nat :=
  (insts.map (fun i => i.volumeIds.length)).sum

/-- An RDS DB instance as returned by `describe_db_instances`. -/
structure RDSInstance where
  dbInstanceIdentifier : String
deriving DecidableEq, Repr

/-- An entry of `results['success']` in `backup_rds_databases`. -/
structure RDSSuccessRecord where
  db_identifier : String
  snapshot_id : String
deriving DecidableEq, Repr

/-- An entry of `results['failed']` in `backup_rds_databases`. -/
structure RDSFailureRecord where
  db_identifier : Option String
  error : String
deriving DecidableEq, Repr

def rdsLookupError (id : String) : String := "DBInstanceNotFound: " ++ id

/-- The explicit-ids resolution loop of `backup_rds_databases`: each id is
looked up individually inside its own `try`; a failed lookup appends one
failure entry for that id and the loop continues. -/
def resolveRdsIds (tbl : String → Option RDSInstance) :
    List String → List RDSInstance × List RDSFailureRecord
  | [] => ([], [])
  | id :: rest =>
    let r := resolveRdsIds tbl rest
    match tbl id with
    | some db => (db :: r.1, r.2)
    | none => (r.1, ⟨some id, rdsLookupError id⟩ :: r.2)

inductive RDSTargets where
  | explicitIds (tbl : String → Option RDSInstance) (ids : List String)
  | discoverAll (described : Except String (List RDSInstance))

/-- `snapshot_id = f"{db_identifier}-backup-{timestamp}"`. -/
def rdsSnapshotName (dbId dateCompact : String) : String :=
  dbId ++ "-backup-" ++ dateCompact

def rdsBackupLoop (createSnap : String → Except String Unit)
    (now : Int) (backupDate dateCompact : String) :
    List RDSInstance → List RDSSuccessRecord × List RDSFailureRecord × List RDSSnapshot
  | [] => ([], [], [])
  | db :: rest =>
    let dbId := db.dbInstanceIdentifier
    let r := rdsBackupLoop createSnap now backupDate dateCompact rest
    match createSnap dbId with
    | .ok _ =>
      (⟨dbId, rdsSnapshotName dbId dateCompact⟩ :: r.1,
       r.2.1,
       ⟨rdsSnapshotName dbId dateCompact, now, rdsSnapshotTags backupDate dbId,
        "creating", dbId, "", 0, false⟩ :: r.2.2)
    | .error e => (r.1, ⟨some dbId, e⟩ :: r.2.1, r.2.2)

structure RDSBackupOutput where
  results : BackupResults RDSSuccessRecord RDSFailureRecord
  created : List RDSSnapshot
deriving Repr

/-- `BackupManager.backup_rds_databases`: with explicit ids the lookups are
per-id (failures recorded individually, batch continues); without ids a
failing `describe_db_instances` is the batch-level `except`. -/
def backup_rds_databases (targets : RDSTargets)
    (createSnap : String → Except String Unit)
    (now : Int) (backupDate dateCompact : String) : RDSBackupOutput :=
  match targets with
  | .explicitIds tbl ids =>
    let res := resolveRdsIds tbl ids
    let r := rdsBackupLoop createSnap now backupDate dateCompact res.1
    ⟨⟨r.1, res.2 ++ r.2.1⟩, r.2.2⟩
  | .discoverAll (.error e) => ⟨⟨[], [⟨none, e⟩]⟩, []⟩
  | .discoverAll (.ok dbs) =>
    let r := rdsBackupLoop createSnap now backupDate dateCompact dbs
    ⟨⟨r.1, r.2.1⟩, r.2.2⟩

/-- A source bucket and the object keys `list_objects_v2` pagination yields. -/
structure S3BucketSrc where
  name : String
  objectKeys : List String
deriving DecidableEq, Repr

/-- An object written into the backup bucket by `copy_object`. -/
structure S3Object where
  key : String
  tags : List Tag
deriving DecidableEq, Repr

structure S3SuccessRecord where
  bucket_name : String
  objects_backed_up : Nat
  backup_location : String
deriving DecidableEq, Repr

structure S3FailureRecord where
  bucket_name : Option String
  error : String
deriving DecidableEq, Repr

/-- `backup_prefix = f"s3-backups/{bucket_name}/{datetime path}/"`. -/
def s3BackupPath (bucketName datePath : String) : String :=
  "s3-backups/" ++ bucketName ++ "/" ++ datePath ++ "/"

/-- The per-bucket object copy loop of `backup_s3_buckets`: copies run inside
the per-bucket `try`, so the first raising `copy_object` aborts this bucket
(already-copied objects remain) and surfaces as the bucket's failure. -/
def copyObjectsLoop (copyObj : String → String → Except String Unit)
    (bucketName pathStr backupDate : String) :
    List String → Nat × List S3Object × Option String
  | [] => (0, [], none)
  | k :: ks =>
    match copyObj bucketName k with
    | .ok _ =>
      let r := copyObjectsLoop copyObj bucketName pathStr backupDate ks
      (r.1 + 1, ⟨pathStr ++ k, s3CopyTags backupDate bucketName⟩ :: r.2.1, r.2.2)
    | .error e => (0, [], some e)

def s3BucketsLoop (copyObj : String → String → Except String Unit)
    (backupBucket datePath backupDate : String) :
    List S3BucketSrc → List S3SuccessRecord × List S3FailureRecord × List S3Object
  | [] => ([], [], [])
  | b :: rest =>
    let pathStr := s3BackupPath b.name datePath
    let c := copyObjectsLoop copyObj b.name pathStr backupDate b.objectKeys
    let r := s3BucketsLoop copyObj backupBucket datePath backupDate rest
    match c.2.2 with
    | none =>
      (⟨b.name, c.1, "s3://" ++ backupBucket ++ "/" ++ pathStr⟩ :: r.1,
       r.2.1, c.2.1 ++ r.2.2)
    | some e => (r.1, ⟨some b.name, e⟩ :: r.2.1, c.2.1 ++ r.2.2)

structure S3BackupOutput where
  results : BackupResults S3SuccessRecord S3FailureRecord
  copied : List S3Object
deriving Repr

/-- `BackupManager.backup_s3_buckets`: a failure of `_ensure_backup_bucket`
or of bucket discovery is the batch-level `except`; otherwise each bucket's
objects are copied under its dated path. -/
def backup_s3_buckets (discovery : Except String (List S3BucketSrc))
    (copyObj : String → String → Except String Unit)
    (backupBucket datePath backupDate : String) : S3BackupOutput :=
  match discovery with
  | .error e => ⟨⟨[], [⟨none, e⟩]⟩, []⟩
  | .ok buckets =>
    let r := s3BucketsLoop copyObj backupBucket datePath backupDate buckets
    ⟨⟨r.1, r.2.1⟩, r.2.2⟩

/-- The `results['summary']` dict of `run_full_backup`. -/
structure PipelineSummary where
  total_successful_backups : Nat
  total_failed_backups : Nat
  backup_status : String
deriving DecidableEq, Repr

/-- The provider oracles and configuration a `run_full_backup` call consumes. -/
structure PipelineEnv where
  ec2Described : Except String (List EC2Instance)
  ec2CreateSnap : String → String → Except String String
  rdsDescribed : Except String (List RDSInstance)
  rdsCreateSnap : String → Except String Unit
  s3Discovery : Except String (List S3BucketSrc)
  s3CopyObj : String → String → Except String Unit
  ec2DeleteFails : String → Bool
  rdsDeleteFails : String → Bool
  snapState : AWSState
  now : Int
  retentionDays : Int
  backupBucket : String
  datePath : String
  backupDate : String
  dateCompact : String

structure FullBackupResults where
  ec2_results : BackupResults EC2SuccessRecord EC2FailureRecord
  rds_results : BackupResults RDSSuccessRecord RDSFailureRecord
  s3_results : BackupResults S3SuccessRecord S3FailureRecord
  cleanup_results : CleanupResult
  summary : PipelineSummary
deriving Repr

/-- `BackupManager.run_full_backup`: the three category backups plus cleanup,
then the summary computed from the three categories' success/failed lengths
(lines 372-384 of backup_manager.py). -/
def run_full_backup (env : PipelineEnv) : FullBackupResults :=
  let e := backup_ec2_instances (.discoverRunning env.ec2Described)
    env.ec2CreateSnap env.now env.backupDate
  let r := backup_rds_databases (.discoverAll env.rdsDescribed)
    env.rdsCreateSnap env.now env.backupDate env.dateCompact
  let s := backup_s3_buckets env.s3Discovery env.s3CopyObj
    env.backupBucket env.datePath env.backupDate
  let c := cleanup_old_backups env.now env.retentionDays
    env.ec2DeleteFails env.rdsDeleteFails env.snapState
  let totalSuccess := e.results.success.length + r.results.success.length +
    s.results.success.length
  let totalFailed := e.results.failed.length + r.results.failed.length +
    s.results.failed.length
  ⟨e.results, r.results, s.results, c.1,
   ⟨totalSuccess, totalFailed,
    if totalFailed = 0 then "SUCCESS" else "PARTIAL_FAILURE"⟩⟩

/-- The result dict of `restore_s3_objects`: the success path carries the two
counters, the batch `except` path carries only the error. -/
structure S3RestoreResult where
  success : Bool
  restored_objects : Option Nat
  failed_objects : Option Nat
  error : Option String
deriving DecidableEq, Repr

/-- The per-object loop of `restore_s3_objects`: each copy has its own `try`,
a failing copy increments `failed_objects` and the loop continues. -/
def restoreObjectsLoop (copyFails : String → Bool) : List String → Nat × Nat
  | [] => (0, 0)
  | k :: ks =>
    let r := restoreObjectsLoop copyFails ks
    if copyFails k then (r.1, r.2 + 1) else (r.1 + 1, r.2)

/-- `RestoreManager.restore_s3_objects`: only a failure of the listing
pagination itself reaches the outer `except`. -/
def restore_s3_objects (listing : Except String (List String))
    (copyFails : String → Bool) : S3RestoreResult :=
  match listing with
  | .error e => ⟨false, none, none, some e⟩
  | .ok keys =>
    let r := restoreObjectsLoop copyFails keys
    ⟨true, some r.1, some r.2, none⟩

/-- The projected EC2 entry of `list_available_backups`. -/
structure EC2BackupEntry where
  snapshot_id : String
  description : String
  start_time : Int
  volume_size : Nat
  state : String
deriving DecidableEq, Repr

/-- The projected RDS entry of `list_available_backups`. -/
structure RDSBackupEntry where
  snapshot_id : String
  db_instance_id : String
  snapshot_create_time : Int
  engine : String
  status : String
deriving DecidableEq, Repr

/-- `sorted(..., key=..., reverse=True)`: newest first. -/
def keyDescRel {α : Type} (key : α → Int) (a b : α) : Prop := key b ≤ key a

instance {α : Type} (key : α → Int) : DecidableRel (keyDescRel key) :=
  fun a b => Int.decLe (key b) (key a)

instance {α : Type} (key : α → Int) : IsTotal α (keyDescRel key) :=
  ⟨fun a b => le_total (key b) (key a)⟩

instance {α : Type} (key : α → Int) : IsTrans α (keyDescRel key) :=
  ⟨fun _ _ _ h1 h2 => le_trans h2 h1⟩

def sortByKeyDesc {α : Type} (key : α → Int) (l : List α) : List α :=
  List.insertionSort (keyDescRel key) l

def ec2BackupEntry (s : EC2Snapshot) : EC2BackupEntry :=
  ⟨s.snapshotId, s.description, s.startTime, s.volumeSize, s.state⟩

def rdsBackupEntry (s : RDSSnapshot) : RDSBackupEntry :=
  ⟨s.dbSnapshotIdentifier, s.dbInstanceIdentifier, s.snapshotCreateTime,
   s.engine, s.status⟩

structure AvailableBackups where
  ec2 : List EC2BackupEntry
  rds : List RDSBackupEntry
deriving DecidableEq, Repr

/-- `RestoreManager.list_available_backups` (resource_type='all', snapshot
categories): filter to `AutomatedBackup=true`, project, sort newest first. -/
def list_available_backups (st : AWSState) : AvailableBackups :=
  ⟨sortByKeyDesc (fun e => e.start_time)
     ((st.ec2Snapshots.filter (fun s => hasAutomatedBackupTag s.tags)).map ec2BackupEntry),
   sortByKeyDesc (fun e => e.snapshot_create_time)
     ((st.rdsSnapshots.filter (fun s => hasAutomatedBackupTag s.tagList)).map rdsBackupEntry)⟩

/-- The three result-dict shapes `validate_backup_integrity` can return. -/
inductive ValidationResult where
  | ec2Check (valid : Bool) (snapshotState : String) (progress : String) (encrypted : Bool)
  | rdsCheck (valid : Bool) (status : String) (percent : Nat) (encrypted : Bool)
  | failure (valid : Bool) (error : String)
deriving DecidableEq, Repr

def ValidationResult.valid : ValidationResult → Bool
  | .ec2Check v _ _ _ => v
  | .rdsCheck v _ _ _ => v
  | .failure v _ => v

def ValidationResult.errorField : ValidationResult → Option String
  | .failure _ e => some e
  | _ => none

/-- `describe_snapshots(SnapshotIds=[id])`: the first matching snapshot, or a
raising call when the id is unknown. -/
def findEC2Snapshot (st : AWSState) (id : String) : Option EC2Snapshot :=
  st.ec2Snapshots.find? (fun s => s.snapshotId == id)

def findRDSSnapshot (st : AWSState) (id : String) : Option RDSSnapshot :=
  st.rdsSnapshots.find? (fun s => s.dbSnapshotIdentifier == id)

/-- `RestoreManager.validate_backup_integrity`: dispatch on the type string;
the lookup is by id only (no tag filter); a failed lookup is caught by the
outer `except` and returned as `{'valid': False, 'error': ...}`. -/
def validate_backup_integrity (st : AWSState) (backup_type backup_id : String) :
    ValidationResult :=
  if backup_type == "ec2" then
    match findEC2Snapshot st backup_id with
    | some s => .ec2Check (s.state == "completed") s.state s.progress s.encrypted
    | none => .failure false ("InvalidSnapshot.NotFound: " ++ backup_id)
  else if backup_type == "rds" then
    match findRDSSnapshot st backup_id with
    | some s => .rdsCheck (s.status == "available") s.status s.percentProgress s.encrypted
    | none => .failure false ("DBSnapshotNotFound: " ++ backup_id)
  else
    .failure false "Unsupported backup type"

/-- Test fixture: the automated-backup marker tag. -/
def abTag : Tag := ⟨"AutomatedBackup", "true"⟩

/-- Test fixture: a tagged completed EC2 snapshot at a given time. -/
def ec2SnapFixture (id : String) (t : Int) : EC2Snapshot :=
  ⟨id, t, [abTag], "completed", 8, "", "100%", false⟩

/-- Test fixture: a tagged available RDS snapshot at a given time. -/
def rdsSnapFixture (id : String) (t : Int) : RDSSnapshot :=
  ⟨id, t, [abTag], "available", "db1", "postgres", 100, false⟩

/-- Test fixture: two tagged snapshots per category, at the retention cutoff
(for now=100, retention=30) and one day older. -/
def retentionFixtureState : AWSState :=
  ⟨[ec2SnapFixture "snap-a" 70, ec2SnapFixture "snap-b" 69],
   [rdsSnapFixture "rds-a" 70, rdsSnapFixture "rds-b" 69]⟩

/-- Test fixture: a tagged EC2 snapshot still in provider state `pending`. -/
def ec2PendingFixture : EC2Snapshot :=
  ⟨"snap-p", 10, [abTag], "pending", 8, "", "50%", false⟩

/-- Test fixture: a completed EC2 snapshot with no tags at all. -/
def ec2UntaggedFixture : EC2Snapshot :=
  ⟨"snap-u", 10, [], "completed", 8, "", "100%", false⟩

/-- Test fixture: three tagged snapshots per category with ascending
creation times 1 < 2 < 3. -/
def listFixtureState : AWSState :=
  ⟨[ec2SnapFixture "e1" 1, ec2SnapFixture "e2" 2, ec2SnapFixture "e3" 3],
   [rdsSnapFixture "r1" 1, rdsSnapFixture "r2" 2, rdsSnapFixture "r3" 3]⟩

/-- Test fixture: a pipeline run with nothing to back up and one expired
tagged EC2 snapshot for cleanup to delete (now=100, retention=30). -/
def c4Env : PipelineEnv :=
  ⟨.ok [], fun _ _ => .error "unused", .ok [], fun _ => .error "unused",
   .ok [], fun _ _ => .error "unused", noDeleteFailure, noDeleteFailure,
   ⟨[ec2SnapFixture "old" 0], []⟩, 100, 30, "bb", "2024/01/01", "d", "dc"⟩

theorem cleanupEC2Loop_noFail (cutoff : Int) (l : List EC2Snapshot) :
    cleanupEC2Loop cutoff noDeleteFailure l =
      ((l.filter (ec2Expired cutoff)).length,
        l.filter (fun s => !ec2Expired cutoff s), false) := by
  induction l with
  | nil => rfl
  | cons s rest ih =>
    by_cases h : ec2Expired cutoff s = true
    · simp [cleanupEC2Loop, noDeleteFailure, h, List.filter_cons, ih]
    · simp [cleanupEC2Loop, h, List.filter_cons, ih]

theorem cleanupRDSLoop_noFail (cutoff : Int) (l : List RDSSnapshot) :
    cleanupRDSLoop cutoff noDeleteFailure l =
      ((l.filter (rdsExpired cutoff)).length,
        l.filter (fun s => !rdsExpired cutoff s), false) := by
  induction l with
  | nil => rfl
  | cons s rest ih =>
    by_cases h : rdsExpired cutoff s = true
    · simp [cleanupRDSLoop, noDeleteFailure, h, List.filter_cons, ih]
    · simp [cleanupRDSLoop, h, List.filter_cons, ih]

theorem cleanup_old_backups_noFail (now ret : Int) (st : AWSState) :
    cleanup_old_backups now ret noDeleteFailure noDeleteFailure st =
      (⟨(st.ec2Snapshots.filter (ec2Expired (now - ret))).length,
         (st.rdsSnapshots.filter (rdsExpired (now - ret))).length, 0⟩,
       ⟨st.ec2Snapshots.filter (fun s => !ec2Expired (now - ret) s),
        st.rdsSnapshots.filter (fun s => !rdsExpired (now - ret) s)⟩) := by
  simp [cleanup_old_backups, cleanupEC2Loop_noFail, cleanupRDSLoop_noFail]

theorem cleanupEC2Loop_abort (cutoff : Int) (df : String → Bool)
    (pre : List EC2Snapshot) (s : EC2Snapshot) (suf : List EC2Snapshot)
    (h1 : ∀ p ∈ pre, df p.snapshotId = false)
    (h2 : ec2Expired cutoff s = true) (h3 : df s.snapshotId = true) :
    cleanupEC2Loop cutoff df (pre ++ s :: suf) =
      ((pre.filter (ec2Expired cutoff)).length,
       pre.filter (fun x => !ec2Expired cutoff x) ++ s :: suf, true) := by
  induction pre with
  | nil => simp [cleanupEC2Loop, h2, h3]
  | cons p ps ih =>
    have hp : df p.snapshotId = false := h1 p (List.mem_cons_self p ps)
    have ih2 := ih (fun q hq => h1 q (List.mem_cons_of_mem _ hq))
    by_cases hx : ec2Expired cutoff p = true
    · simp [cleanupEC2Loop, hx, hp, ih2, List.filter_cons]
    · simp [cleanupEC2Loop, hx, ih2, List.filter_cons]

/-- C3: with no provider failures, `cleanup_old_backups` deletes a tagged
artifact iff its provider-reported creation time is strictly before
`now - retention_days`, with the same strict-`<` cutoff for the EC2 and the
RDS snapshot category. -/
theorem c3_retention_strict_cutoff (now ret : Int) (st : AWSState)
    (s : EC2Snapshot) (r : RDSSnapshot)
    (hsTag : hasAutomatedBackupTag s.tags = true)
    (hrTag : hasAutomatedBackupTag r.tagList = true)
    (hsMem : s ∈ st.ec2Snapshots) (hrMem : r ∈ st.rdsSnapshots) :
    (s ∉ (cleanup_old_backups now ret noDeleteFailure noDeleteFailure st).2.ec2Snapshots
       ↔ s.startTime < now - ret)
    ∧ (r ∉ (cleanup_old_backups now ret noDeleteFailure noDeleteFailure st).2.rdsSnapshots
       ↔ r.snapshotCreateTime < now - ret) := by
  rw [cleanup_old_backups_noFail]
  constructor
  · simp [List.mem_filter, hsMem, ec2Expired, hsTag]
    omega
  · simp [List.mem_filter, hrMem, rdsExpired, hrTag]
    omega

/-- Witness for C3: with now=100, retention=30, the tagged snapshots created
at exactly the cutoff 70 survive cleanup and those created at 69 are
deleted, in both categories. -/
theorem c3_retention_strict_cutoff_witness :
    ec2SnapFixture "snap-a" 70 ∈
      (cleanup_old_backups 100 30 noDeleteFailure noDeleteFailure retentionFixtureState).2.ec2Snapshots
    ∧ ec2SnapFixture "snap-b" 69 ∉
      (cleanup_old_backups 100 30 noDeleteFailure noDeleteFailure retentionFixtureState).2.ec2Snapshots
    ∧ rdsSnapFixture "rds-a" 70 ∈
      (cleanup_old_backups 100 30 noDeleteFailure noDeleteFailure retentionFixtureState).2.rdsSnapshots
    ∧ rdsSnapFixture "rds-b" 69 ∉
      (cleanup_old_backups 100 30 noDeleteFailure noDeleteFailure retentionFixtureState).2.rdsSnapshots := by
  have hA := c3_retention_strict_cutoff 100 30 retentionFixtureState
    (ec2SnapFixture "snap-a" 70) (rdsSnapFixture "rds-a" 70)
    (by decide) (by decide) (by decide) (by decide)
  have hB := c3_retention_strict_cutoff 100 30 retentionFixtureState
    (ec2SnapFixture "snap-b" 69) (rdsSnapFixture "rds-b" 69)
    (by decide) (by decide) (by decide) (by decide)
  refine ⟨?_, hB.1.mpr (by decide), ?_, hB.2.mpr (by decide)⟩
  · by_contra h
    exact absurd (hA.1.mp h) (by decide)
  · by_contra h
    exact absurd (hA.2.mp h) (by decide)

/-- C8: cleanup is idempotent against the provider state: re-running it
immediately (same now, same retention, so no artifact is newly older than the
cutoff) deletes nothing in any category. -/
theorem c8_cleanup_idempotent (now ret : Int) (st : AWSState) :
    (cleanup_old_backups now ret noDeleteFailure noDeleteFailure
      (cleanup_old_backups now ret noDeleteFailure noDeleteFailure st).2).1 =
      ⟨0, 0, 0⟩ := by
  simp [cleanup_old_backups_noFail, List.filter_filter]

/-- C10: cleanup is not atomic: if `delete_snapshot` raises on an expired
tagged EC2 snapshot, the RDS phase never runs (0 RDS deletions, RDS snapshots
untouched), the EC2 deletions already performed are kept (not rolled back),
and the partial counts are returned in the ordinary result record, which has
no error field. -/
theorem c10_cleanup_not_atomic (now ret : Int) (dfE dfR : String → Bool)
    (pre suf : List EC2Snapshot) (s : EC2Snapshot) (rds : List RDSSnapshot)
    (h1 : ∀ p ∈ pre, dfE p.snapshotId = false)
    (h2 : ec2Expired (now - ret) s = true)
    (h3 : dfE s.snapshotId = true) :
    cleanup_old_backups now ret dfE dfR ⟨pre ++ s :: suf, rds⟩ =
      (⟨(pre.filter (ec2Expired (now - ret))).length, 0, 0⟩,
       ⟨pre.filter (fun x => !ec2Expired (now - ret) x) ++ s :: suf, rds⟩) := by
  simp [cleanup_old_backups, cleanupEC2Loop_abort _ _ _ _ _ h1 h2 h3]

/-- Witness for C10: one expired tagged snapshot is deleted, then the delete
of "snap-b" raises: the run returns counts (1,0,0) and leaves "snap-b" and
the expired RDS snapshot in place. -/
theorem c10_cleanup_not_atomic_witness :
    cleanup_old_backups 100 30 (fun id => id == "snap-b") noDeleteFailure
      ⟨[ec2SnapFixture "snap-a" 10, ec2SnapFixture "snap-b" 20],
       [rdsSnapFixture "rds-a" 10]⟩ =
      (⟨1, 0, 0⟩, ⟨[ec2SnapFixture "snap-b" 20], [rdsSnapFixture "rds-a" 10]⟩) := by
  have h := c10_cleanup_not_atomic 100 30 (fun id => id == "snap-b") noDeleteFailure
    [ec2SnapFixture "snap-a" 10] [] (ec2SnapFixture "snap-b" 20)
    [rdsSnapFixture "rds-a" 10] (by decide) (by decide) (by decide)
  exact h.trans (by decide)

/-- C6: `validate_backup_integrity` maps provider state to a boolean: for
'ec2' the artifact is valid iff its state equals "completed"; for 'rds' iff
its status equals "available"; any other type string returns valid=false with
the fixed message "Unsupported backup type"; a failed lookup returns
valid=false with an error message.  The Lean model is a total function, so no
path raises. -/
theorem c6_validate_integrity_mapping (st : AWSState) (id t : String) :
    (∀ s, findEC2Snapshot st id = some s →
        ((validate_backup_integrity st "ec2" id).valid = true ↔ s.state = "completed"))
    ∧ (∀ s, findRDSSnapshot st id = some s →
        ((validate_backup_integrity st "rds" id).valid = true ↔ s.status = "available"))
    ∧ (t ≠ "ec2" → t ≠ "rds" →
        validate_backup_integrity st t id = .failure false "Unsupported backup type")
    ∧ (findEC2Snapshot st id = none →
        (validate_backup_integrity st "ec2" id).valid = false
        ∧ (validate_backup_integrity st "ec2" id).errorField =
            some ("InvalidSnapshot.NotFound: " ++ id))
    ∧ (findRDSSnapshot st id = none →
        (validate_backup_integrity st "rds" id).valid = false
        ∧ (validate_backup_integrity st "rds" id).errorField =
            some ("DBSnapshotNotFound: " ++ id)) := by
  refine ⟨?_, ?_, ?_, ?_, ?_⟩
  · intro s hs
    simp [validate_backup_integrity, hs, ValidationResult.valid]
  · intro s hs
    simp [validate_backup_integrity, hs, ValidationResult.valid]
  · intro h1 h2
    have b1 : (t == "ec2") = false := by simpa using h1
    have b2 : (t == "rds") = false := by simpa using h2
    simp [validate_backup_integrity, b1, b2]
  · intro hn
    simp [validate_backup_integrity, hn, ValidationResult.valid, ValidationResult.errorField]
  · intro hn
    simp [validate_backup_integrity, hn, ValidationResult.valid, ValidationResult.errorField]

/-- Witness for C6: a completed snapshot validates, a pending one does not,
an unsupported type string gives the fixed error record, and an unknown id
gives valid=false. -/
theorem c6_validate_integrity_mapping_witness :
    (validate_backup_integrity ⟨[ec2SnapFixture "snap-a" 70], []⟩ "ec2" "snap-a").valid = true
    ∧ (validate_backup_integrity ⟨[ec2PendingFixture], []⟩ "ec2" "snap-p").valid = false
    ∧ validate_backup_integrity ⟨[], []⟩ "s3" "b1" = .failure false "Unsupported backup type"
    ∧ (validate_backup_integrity ⟨[], []⟩ "ec2" "snap-z").valid = false := by
  have h1 := (c6_validate_integrity_mapping ⟨[ec2SnapFixture "snap-a" 70], []⟩ "snap-a" "s3").1
    (ec2SnapFixture "snap-a" 70) (by decide)
  have h2 := (c6_validate_integrity_mapping ⟨[ec2PendingFixture], []⟩ "snap-p" "s3").1
    ec2PendingFixture (by decide)
  have h3 := (c6_validate_integrity_mapping (⟨[], []⟩ : AWSState) "b1" "s3").2.2.1
    (by decide) (by decide)
  have h4 := (c6_validate_integrity_mapping (⟨[], []⟩ : AWSState) "snap-z" "s3").2.2.2.1
    (by decide)
  refine ⟨h1.mpr (by decide), ?_, h3, h4.1⟩
  by_cases hv : (validate_backup_integrity ⟨[ec2PendingFixture], []⟩ "ec2" "snap-p").valid = true
  · exact absurd (h2.mp hv) (by decide)
  · simpa using hv

theorem restoreObjectsLoop_sum (cf : String → Bool) (keys : List String) :
    (restoreObjectsLoop cf keys).1 + (restoreObjectsLoop cf keys).2 = keys.length := by
  induction keys with
  | nil => rfl
  | cons k ks ih =>
    by_cases h : cf k = true
    · simp [restoreObjectsLoop, h]
      omega
    · simp [restoreObjectsLoop, h]
      omega

theorem restoreObjectsLoop_allFail (keys : List String) :
    restoreObjectsLoop (fun _ => true) keys = (0, keys.length) := by
  induction keys with
  | nil => rfl
  | cons k ks ih => simp [restoreObjectsLoop, ih]

/-- C9: `restore_s3_objects` returns success=true whenever the listing
completes, with per-object counters summing to the object count — even when
every copy fails (restored=0, failed=n); success=false occurs only when the
listing raises, and then the result carries no per-object counts. -/
theorem c9_restore_s3_success_semantics (keys : List String)
    (cf : String → Bool) (e : String) :
    (restore_s3_objects (.ok keys) cf).success = true
    ∧ (restore_s3_objects (.ok keys) cf).restored_objects =
        some (restoreObjectsLoop cf keys).1
    ∧ (restore_s3_objects (.ok keys) cf).failed_objects =
        some (restoreObjectsLoop cf keys).2
    ∧ (restoreObjectsLoop cf keys).1 + (restoreObjectsLoop cf keys).2 = keys.length
    ∧ (restore_s3_objects (.ok keys) (fun _ => true)).success = true
    ∧ (restore_s3_objects (.ok keys) (fun _ => true)).restored_objects = some 0
    ∧ (restore_s3_objects (.ok keys) (fun _ => true)).failed_objects = some keys.length
    ∧ restore_s3_objects (.error e) cf =
        ⟨false, none, none, some e⟩ := by
  refine ⟨rfl, rfl, rfl, restoreObjectsLoop_sum cf keys, rfl, ?_, ?_, rfl⟩
  · simp [restore_s3_objects, restoreObjectsLoop_allFail]
  · simp [restore_s3_objects, restoreObjectsLoop_allFail]

theorem sortByKeyDesc_perm {α : Type} (key : α → Int) (l : List α) :
    (sortByKeyDesc key l).Perm l :=
  List.perm_insertionSort _ l

theorem sortByKeyDesc_sorted {α : Type} (key : α → Int) (l : List α) :
    (sortByKeyDesc key l).Sorted (keyDescRel key) :=
  List.sorted_insertionSort _ l

/-- Descending order on creation timestamps. -/
def intDesc (a b : Int) : Prop := b ≤ a

instance : IsAntisymm Int intDesc := ⟨fun _ _ h1 h2 => le_antisymm h2 h1⟩

theorem sorted_map_key {α : Type} (key : α → Int) (l : List α)
    (h : l.Sorted (keyDescRel key)) : (l.map key).Sorted intDesc :=
  List.pairwise_map.mpr h

theorem sortByKeyDesc_three {α : Type} (key : α → Int) (l : List α)
    (t1 t2 t3 : Int) (h12 : t1 < t2) (h23 : t2 < t3)
    (hperm : (l.map key).Perm [t1, t2, t3]) :
    (sortByKeyDesc key l).map key = [t3, t2, t1] := by
  have hrev : ([t1, t2, t3] : List Int).Perm [t3, t2, t1] := by
    have := List.reverse_perm [t3, t2, t1]
    simpa using this
  have hp : ((sortByKeyDesc key l).map key).Perm [t3, t2, t1] :=
    (((sortByKeyDesc_perm key l).map key).trans hperm).trans hrev
  have hs1 : ((sortByKeyDesc key l).map key).Sorted intDesc :=
    sorted_map_key key _ (sortByKeyDesc_sorted key l)
  have hs2 : ([t3, t2, t1] : List Int).Sorted intDesc := by
    refine List.Pairwise.cons ?_ (List.Pairwise.cons ?_ (List.pairwise_singleton _ _))
    · intro b hb
      rcases List.mem_cons.mp hb with h | h
      · rw [h]
        exact le_of_lt h23
      · rw [List.mem_singleton.mp h]
        exact le_of_lt (lt_trans h12 h23)
    · intro b hb
      rw [List.mem_singleton.mp hb]
      exact le_of_lt h12
  exact List.eq_of_perm_of_sorted hp hs1 hs2

/-- C7: `list_available_backups` returns each snapshot category newest first:
if the tagged artifacts of a category have creation times t1 < t2 < t3 (in
any provider order), the listing's creation-time sequence is [t3, t2, t1];
moreover the listed entries are exactly the projections of the tagged
artifacts. -/
theorem c7_listing_sorted_desc (st : AWSState) (t1 t2 t3 u1 u2 u3 : Int)
    (h12 : t1 < t2) (h23 : t2 < t3) (g12 : u1 < u2) (g23 : u2 < u3)
    (hE : ((st.ec2Snapshots.filter (fun s => hasAutomatedBackupTag s.tags)).map
        (fun s => s.startTime)).Perm [t1, t2, t3])
    (hR : ((st.rdsSnapshots.filter (fun s => hasAutomatedBackupTag s.tagList)).map
        (fun s => s.snapshotCreateTime)).Perm [u1, u2, u3]) :
    ((list_available_backups st).ec2.map (fun e => e.start_time) = [t3, t2, t1])
    ∧ ((list_available_backups st).rds.map (fun e => e.snapshot_create_time) = [u3, u2, u1])
    ∧ (list_available_backups st).ec2.Perm
        ((st.ec2Snapshots.filter (fun s => hasAutomatedBackupTag s.tags)).map ec2BackupEntry)
    ∧ (list_available_backups st).rds.Perm
        ((st.rdsSnapshots.filter (fun s => hasAutomatedBackupTag s.tagList)).map rdsBackupEntry) := by
  refine ⟨?_, ?_, sortByKeyDesc_perm _ _, sortByKeyDesc_perm _ _⟩
  · refine sortByKeyDesc_three _ _ t1 t2 t3 h12 h23 ?_
    rw [List.map_map]
    exact hE
  · refine sortByKeyDesc_three _ _ u1 u2 u3 g12 g23 ?_
    rw [List.map_map]
    exact hR

/-- Witness for C7: three tagged artifacts per category with times 1 < 2 < 3
are listed with times [3, 2, 1]. -/
theorem c7_listing_sorted_desc_witness :
    ((list_available_backups listFixtureState).ec2.map (fun e => e.start_time) = [3, 2, 1])
    ∧ ((list_available_backups listFixtureState).rds.map
        (fun e => e.snapshot_create_time) = [3, 2, 1]) := by
  have h := c7_listing_sorted_desc listFixtureState 1 2 3 1 2 3
    (by decide) (by decide) (by decide) (by decide)
    (by decide) (by decide)
  exact ⟨h.1, h.2.1⟩

theorem ec2SnapshotTags_tagged (i v d : String) :
    hasAutomatedBackupTag (ec2SnapshotTags i v d) = true := by
  simp [ec2SnapshotTags, hasAutomatedBackupTag]

theorem rdsSnapshotTags_tagged (d db : String) :
    hasAutomatedBackupTag (rdsSnapshotTags d db) = true := by
  simp [rdsSnapshotTags, hasAutomatedBackupTag]

theorem s3CopyTags_untagged (d b : String) :
    hasAutomatedBackupTag (s3CopyTags d b) = false := by
  simp [s3CopyTags, hasAutomatedBackupTag]

theorem backupVolumes_created_tagged (cs : String → String → Except String String)
    (now : Int) (d i : String) (vs : List String) (s : EC2Snapshot)
    (h : s ∈ (backupVolumes cs now d i vs).2.2) :
    hasAutomatedBackupTag s.tags = true := by
  induction vs with
  | nil => simp [backupVolumes] at h
  | cons v vt ih =>
    cases hc : cs i v with
    | ok sid =>
      simp only [backupVolumes, hc, List.mem_cons] at h
      rcases h with h | h
      · rw [h]
        exact ec2SnapshotTags_tagged i v d
      · exact ih h
    | error e =>
      simp [backupVolumes, hc] at h

theorem ec2BackupLoop_created_tagged (cs : String → String → Except String String)
    (now : Int) (d : String) (insts : List EC2Instance) (s : EC2Snapshot)
    (h : s ∈ (ec2BackupLoop cs now d insts).2.2) :
    hasAutomatedBackupTag s.tags = true := by
  induction insts with
  | nil => simp [ec2BackupLoop] at h
  | cons inst rest ih =>
    simp only [ec2BackupLoop, List.mem_append] at h
    rcases h with h | h
    · exact backupVolumes_created_tagged cs now d inst.instanceId inst.volumeIds s h
    · exact ih h

theorem backup_ec2_created_tagged (targets : EC2Targets)
    (cs : String → String → Except String String) (now : Int) (d : String)
    (s : EC2Snapshot) (h : s ∈ (backup_ec2_instances targets cs now d).created) :
    hasAutomatedBackupTag s.tags = true := by
  cases hr : resolveEC2Targets targets with
  | error e => simp [backup_ec2_instances, hr] at h
  | ok insts =>
    simp only [backup_ec2_instances, hr] at h
    exact ec2BackupLoop_created_tagged cs now d insts s h

theorem rdsBackupLoop_created_tagged (cs : String → Except String Unit)
    (now : Int) (d dc : String) (dbs : List RDSInstance) (s : RDSSnapshot)
    (h : s ∈ (rdsBackupLoop cs now d dc dbs).2.2) :
    hasAutomatedBackupTag s.tagList = true := by
  induction dbs with
  | nil => simp [rdsBackupLoop] at h
  | cons db rest ih =>
    cases hc : cs db.dbInstanceIdentifier with
    | ok u =>
      simp only [rdsBackupLoop, hc, List.mem_cons] at h
      rcases h with h | h
      · rw [h]
        exact rdsSnapshotTags_tagged d db.dbInstanceIdentifier
      · exact ih h
    | error e =>
      simp only [rdsBackupLoop, hc] at h
      exact ih h

theorem backup_rds_created_tagged (targets : RDSTargets)
    (cs : String → Except String Unit) (now : Int) (d dc : String)
    (s : RDSSnapshot) (h : s ∈ (backup_rds_databases targets cs now d dc).created) :
    hasAutomatedBackupTag s.tagList = true := by
  cases targets with
  | explicitIds tbl ids =>
    simp only [backup_rds_databases] at h
    exact rdsBackupLoop_created_tagged cs now d dc (resolveRdsIds tbl ids).1 s h
  | discoverAll described =>
    cases described with
    | error e => simp [backup_rds_databases] at h
    | ok dbs =>
      simp only [backup_rds_databases] at h
      exact rdsBackupLoop_created_tagged cs now d dc dbs s h

theorem copyObjectsLoop_copied_untagged (co : String → String → Except String Unit)
    (b p d : String) (ks : List String) (o : S3Object)
    (h : o ∈ (copyObjectsLoop co b p d ks).2.1) :
    hasAutomatedBackupTag o.tags = false := by
  induction ks with
  | nil => simp [copyObjectsLoop] at h
  | cons k kt ih =>
    cases hc : co b k with
    | ok u =>
      simp only [copyObjectsLoop, hc, List.mem_cons] at h
      rcases h with h | h
      · rw [h]
        exact s3CopyTags_untagged d b
      · exact ih h
    | error e =>
      simp [copyObjectsLoop, hc] at h

theorem s3BucketsLoop_copied_untagged (co : String → String → Except String Unit)
    (bb dp d : String) (bs : List S3BucketSrc) (o : S3Object)
    (h : o ∈ (s3BucketsLoop co bb dp d bs).2.2) :
    hasAutomatedBackupTag o.tags = false := by
  induction bs with
  | nil => simp [s3BucketsLoop] at h
  | cons b rest ih =>
    cases hc : (copyObjectsLoop co b.name (s3BackupPath b.name dp) d b.objectKeys).2.2 with
    | none =>
      simp only [s3BucketsLoop, hc, List.mem_append] at h
      rcases h with h | h
      · exact copyObjectsLoop_copied_untagged co b.name (s3BackupPath b.name dp) d
          b.objectKeys o h
      · exact ih h
    | some e =>
      simp only [s3BucketsLoop, hc, List.mem_append] at h
      rcases h with h | h
      · exact copyObjectsLoop_copied_untagged co b.name (s3BackupPath b.name dp) d
          b.objectKeys o h
      · exact ih h

theorem backup_s3_copied_untagged (disc : Except String (List S3BucketSrc))
    (co : String → String → Except String Unit) (bb dp d : String)
    (o : S3Object) (h : o ∈ (backup_s3_buckets disc co bb dp d).copied) :
    hasAutomatedBackupTag o.tags = false := by
  cases disc with
  | error e => simp [backup_s3_buckets] at h
  | ok bs =>
    simp only [backup_s3_buckets] at h
    exact s3BucketsLoop_copied_untagged co bb dp d bs o h

theorem cleanupEC2Loop_keeps_untagged (cutoff : Int) (df : String → Bool)
    (l : List EC2Snapshot) (u : EC2Snapshot)
    (hu : hasAutomatedBackupTag u.tags = false) (hm : u ∈ l) :
    u ∈ (cleanupEC2Loop cutoff df l).2.1 := by
  induction l with
  | nil => simp at hm
  | cons s rest ih =>
    rcases List.mem_cons.mp hm with he | he
    · have hx : ec2Expired cutoff s = false := by
        rw [he] at hu
        simp [ec2Expired, hu]
      simp only [cleanupEC2Loop, hx]
      simp [he]
    · by_cases hx : ec2Expired cutoff s = true
      · by_cases hd : df s.snapshotId = true
        · simp only [cleanupEC2Loop, hx, hd, if_true]
          exact List.mem_cons_of_mem s he
        · have hd2 : df s.snapshotId = false := by simpa using hd
          simp only [cleanupEC2Loop, hx, hd2, if_true, Bool.false_eq_true, if_false]
          exact ih he
      · have hx2 : ec2Expired cutoff s = false := by simpa using hx
        simp only [cleanupEC2Loop, hx2, Bool.false_eq_true, if_false]
        exact List.mem_cons_of_mem s (ih he)

theorem cleanupRDSLoop_keeps_untagged (cutoff : Int) (df : String → Bool)
    (l : List RDSSnapshot) (u : RDSSnapshot)
    (hu : hasAutomatedBackupTag u.tagList = false) (hm : u ∈ l) :
    u ∈ (cleanupRDSLoop cutoff df l).2.1 := by
  induction l with
  | nil => simp at hm
  | cons s rest ih =>
    rcases List.mem_cons.mp hm with he | he
    · have hx : rdsExpired cutoff s = false := by
        rw [he] at hu
        simp [rdsExpired, hu]
      simp only [cleanupRDSLoop, hx]
      simp [he]
    · by_cases hx : rdsExpired cutoff s = true
      · by_cases hd : df s.dbSnapshotIdentifier = true
        · simp only [cleanupRDSLoop, hx, hd, if_true]
          exact List.mem_cons_of_mem s he
        · have hd2 : df s.dbSnapshotIdentifier = false := by simpa using hd
          simp only [cleanupRDSLoop, hx, hd2, if_true, Bool.false_eq_true, if_false]
          exact ih he
      · have hx2 : rdsExpired cutoff s = false := by simpa using hx
        simp only [cleanupRDSLoop, hx2, Bool.false_eq_true, if_false]
        exact List.mem_cons_of_mem s (ih he)

theorem cleanup_keeps_untagged_ec2 (now ret : Int) (dfE dfR : String → Bool)
    (st : AWSState) (u : EC2Snapshot)
    (hu : hasAutomatedBackupTag u.tags = false) (hm : u ∈ st.ec2Snapshots) :
    u ∈ (cleanup_old_backups now ret dfE dfR st).2.ec2Snapshots := by
  have h := cleanupEC2Loop_keeps_untagged (now - ret) dfE st.ec2Snapshots u hu hm
  simp only [cleanup_old_backups]
  split
  · exact h
  · exact h

theorem cleanup_keeps_untagged_rds (now ret : Int) (dfE dfR : String → Bool)
    (st : AWSState) (u : RDSSnapshot)
    (hu : hasAutomatedBackupTag u.tagList = false) (hm : u ∈ st.rdsSnapshots) :
    u ∈ (cleanup_old_backups now ret dfE dfR st).2.rdsSnapshots := by
  simp only [cleanup_old_backups]
  split
  · exact hm
  · exact cleanupRDSLoop_keeps_untagged (now - ret) dfR st.rdsSnapshots u hu hm

/-- C1 (amended): EC2 and RDS snapshot creation always attaches
`AutomatedBackup=true` (both as the literal tag-set argument and on every
artifact the batch operations create), and listing and cleanup never act on
an artifact lacking the tag; HOWEVER the S3 backup copies are tagged only
`BackupDate` and `SourceBucket` — no `AutomatedBackup` tag — and
`validate_backup_integrity` looks an artifact up by id alone and acts on it
(here: validates a completed snapshot) whether or not it carries the tag. -/
theorem c1_tag_invariant_amended :
    (∀ i v d, hasAutomatedBackupTag (ec2SnapshotTags i v d) = true)
    ∧ (∀ d db, hasAutomatedBackupTag (rdsSnapshotTags d db) = true)
    ∧ (∀ targets cs now d s, s ∈ (backup_ec2_instances targets cs now d).created →
        hasAutomatedBackupTag s.tags = true)
    ∧ (∀ targets cs now d dc s, s ∈ (backup_rds_databases targets cs now d dc).created →
        hasAutomatedBackupTag s.tagList = true)
    ∧ (∀ st : AWSState, ∀ u : EC2Snapshot, hasAutomatedBackupTag u.tags = false →
        (list_available_backups ⟨u :: st.ec2Snapshots, st.rdsSnapshots⟩).ec2 =
          (list_available_backups st).ec2)
    ∧ (∀ st : AWSState, ∀ u : RDSSnapshot, hasAutomatedBackupTag u.tagList = false →
        (list_available_backups ⟨st.ec2Snapshots, u :: st.rdsSnapshots⟩).rds =
          (list_available_backups st).rds)
    ∧ (∀ now ret dfE dfR st u, hasAutomatedBackupTag u.tags = false →
        u ∈ st.ec2Snapshots →
        u ∈ (cleanup_old_backups now ret dfE dfR st).2.ec2Snapshots)
    ∧ (∀ now ret dfE dfR st u, hasAutomatedBackupTag u.tagList = false →
        u ∈ st.rdsSnapshots →
        u ∈ (cleanup_old_backups now ret dfE dfR st).2.rdsSnapshots)
    ∧ (∀ d b, hasAutomatedBackupTag (s3CopyTags d b) = false)
    ∧ (∀ disc co bb dp d o, o ∈ (backup_s3_buckets disc co bb dp d).copied →
        hasAutomatedBackupTag o.tags = false)
    ∧ (∀ st id s, findEC2Snapshot st id = some s → s.state = "completed" →
        (validate_backup_integrity st "ec2" id).valid = true) := by
  refine ⟨ec2SnapshotTags_tagged, rdsSnapshotTags_tagged,
    backup_ec2_created_tagged, backup_rds_created_tagged,
    ?_, ?_, cleanup_keeps_untagged_ec2, cleanup_keeps_untagged_rds,
    s3CopyTags_untagged, backup_s3_copied_untagged, ?_⟩
  · intro st u hu
    simp [list_available_backups, List.filter_cons, hu]
  · intro st u hu
    simp [list_available_backups, List.filter_cons, hu]
  · intro st id s hf hs
    simp [validate_backup_integrity, hf, ValidationResult.valid, hs]

/-- Witness for C1 (amended) at concrete inputs: the EC2/RDS creation tag
sets carry the marker, the S3 copy tag set does not, and an entirely
untagged completed snapshot is still validated. -/
theorem c1_tag_invariant_amended_witness :
    hasAutomatedBackupTag (ec2SnapshotTags "i-1" "v-1" "2024") = true
    ∧ hasAutomatedBackupTag (rdsSnapshotTags "2024" "db1") = true
    ∧ hasAutomatedBackupTag (s3CopyTags "2024" "bkt") = false
    ∧ (validate_backup_integrity ⟨[ec2UntaggedFixture], []⟩ "ec2" "snap-u").valid = true :=
  ⟨c1_tag_invariant_amended.1 "i-1" "v-1" "2024",
   c1_tag_invariant_amended.2.1 "2024" "db1",
   c1_tag_invariant_amended.2.2.2.2.2.2.2.2.1 "2024" "bkt",
   c1_tag_invariant_amended.2.2.2.2.2.2.2.2.2.2
     ⟨[ec2UntaggedFixture], []⟩ "snap-u" ec2UntaggedFixture (by decide) (by decide)⟩

/-- Counterexample to C1 as stated: backing up one S3 bucket creates a copy
whose tag set has no `AutomatedBackup=true` entry, and
`validate_backup_integrity` acts on (validates) a snapshot carrying no tags
at all. -/
theorem c1_tag_invariant_counterexample :
    (backup_s3_buckets (.ok [⟨"src", ["k1"]⟩]) (fun _ _ => .ok ())
        "bb" "2024/01/01" "d").copied =
      [⟨"s3-backups/src/2024/01/01/k1", s3CopyTags "d" "src"⟩]
    ∧ hasAutomatedBackupTag (s3CopyTags "d" "src") = false
    ∧ (validate_backup_integrity ⟨[ec2UntaggedFixture], []⟩ "ec2" "snap-u").valid = true := by
  refine ⟨by decide, by decide, by decide⟩

theorem backupVolumes_length_le (cs : String → String → Except String String)
    (now : Int) (d i : String) (vs : List String) :
    (backupVolumes cs now d i vs).1.length +
      (backupVolumes cs now d i vs).2.1.length ≤ vs.length := by
  induction vs with
  | nil => simp [backupVolumes]
  | cons v vt ih =>
    cases hc : cs i v with
    | ok sid =>
      simp only [backupVolumes, hc, List.length_cons]
      omega
    | error e =>
      simp only [backupVolumes, hc, List.length_cons, List.length_nil,
        List.length_singleton]
      omega

theorem ec2BackupLoop_length_le (cs : String → String → Except String String)
    (now : Int) (d : String) (insts : List EC2Instance) :
    (ec2BackupLoop cs now d insts).1.length +
      (ec2BackupLoop cs now d insts).2.1.length ≤ totalVolumes insts := by
  induction insts with
  | nil => simp [ec2BackupLoop, totalVolumes]
  | cons inst rest ih =>
    have hv := backupVolumes_length_le cs now d inst.instanceId inst.volumeIds
    simp only [ec2BackupLoop, totalVolumes, List.map_cons, List.sum_cons,
      List.length_append] at *
    omega

theorem resolveRdsIds_partition (tbl : String → Option RDSInstance)
    (ids : List String) :
    (resolveRdsIds tbl ids).1.length + (resolveRdsIds tbl ids).2.length =
      ids.length := by
  induction ids with
  | nil => simp [resolveRdsIds]
  | cons id rest ih =>
    cases hc : tbl id with
    | some db =>
      simp only [resolveRdsIds, hc, List.length_cons]
      omega
    | none =>
      simp only [resolveRdsIds, hc, List.length_cons]
      omega

theorem rdsBackupLoop_partition (cs : String → Except String Unit)
    (now : Int) (d dc : String) (dbs : List RDSInstance) :
    (rdsBackupLoop cs now d dc dbs).1.length +
      (rdsBackupLoop cs now d dc dbs).2.1.length = dbs.length := by
  induction dbs with
  | nil => simp [rdsBackupLoop]
  | cons db rest ih =>
    cases hc : cs db.dbInstanceIdentifier with
    | ok u =>
      simp only [rdsBackupLoop, hc, List.length_cons]
      omega
    | error e =>
      simp only [rdsBackupLoop, hc, List.length_cons]
      omega

theorem s3BucketsLoop_partition (co : String → String → Except String Unit)
    (bb dp d : String) (bs : List S3BucketSrc) :
    (s3BucketsLoop co bb dp d bs).1.length +
      (s3BucketsLoop co bb dp d bs).2.1.length = bs.length := by
  induction bs with
  | nil => simp [s3BucketsLoop]
  | cons b rest ih =>
    cases hc : (copyObjectsLoop co b.name (s3BackupPath b.name dp) d b.objectKeys).2.2 with
    | none =>
      simp only [s3BucketsLoop, hc, List.length_cons]
      omega
    | some e =>
      simp only [s3BucketsLoop, hc, List.length_cons]
      omega

/-- C2 (amended): for the RDS explicit-ids batch every requested id is
accounted exactly once, so `len(success) + len(failed) = n`; likewise for
S3 every considered bucket yields exactly one entry; but for EC2 the success
list holds one entry per successfully snapshotted VOLUME, so the bound is
the total number of attached volumes of the considered instances, not the
number of instances. -/
theorem c2_batch_outcome_sizes_amended
    (targets : EC2Targets) (csE : String → String → Except String String)
    (now : Int) (d dc : String)
    (tbl : String → Option RDSInstance) (ids : List String)
    (csR : String → Except String Unit)
    (disc : List S3BucketSrc) (co : String → String → Except String Unit)
    (bb dp : String)
    (insts : List EC2Instance) (hok : resolveEC2Targets targets = .ok insts) :
    ((backup_ec2_instances targets csE now d).results.success.length +
        (backup_ec2_instances targets csE now d).results.failed.length ≤
        totalVolumes insts)
    ∧ ((backup_rds_databases (.explicitIds tbl ids) csR now d dc).results.success.length +
        (backup_rds_databases (.explicitIds tbl ids) csR now d dc).results.failed.length =
        ids.length)
    ∧ ((backup_s3_buckets (.ok disc) co bb dp d).results.success.length +
        (backup_s3_buckets (.ok disc) co bb dp d).results.failed.length =
        disc.length) := by
  refine ⟨?_, ?_, ?_⟩
  · simp only [backup_ec2_instances, hok]
    exact ec2BackupLoop_length_le csE now d insts
  · have h1 := resolveRdsIds_partition tbl ids
    have h2 := rdsBackupLoop_partition csR now d dc (resolveRdsIds tbl ids).1
    simp only [backup_rds_databases, List.length_append]
    omega
  · simp only [backup_s3_buckets]
    exact s3BucketsLoop_partition co bb dp d disc

/-- Witness for C2 (amended): one two-volume instance gives at most 2
entries; one RDS id and one bucket give exactly one entry each. -/
theorem c2_batch_outcome_sizes_amended_witness :
    ((backup_ec2_instances (.discoverRunning (.ok [⟨"i-1", ["v-1", "v-2"]⟩]))
        (fun _ v => .ok ("snap-" ++ v)) 50 "d").results.success.length +
      (backup_ec2_instances (.discoverRunning (.ok [⟨"i-1", ["v-1", "v-2"]⟩]))
        (fun _ v => .ok ("snap-" ++ v)) 50 "d").results.failed.length ≤
      totalVolumes [⟨"i-1", ["v-1", "v-2"]⟩])
    ∧ ((backup_rds_databases (.explicitIds (fun id => some ⟨id⟩) ["db-1"])
        (fun _ => .ok ()) 50 "d" "dc").results.success.length +
      (backup_rds_databases (.explicitIds (fun id => some ⟨id⟩) ["db-1"])
        (fun _ => .ok ()) 50 "d" "dc").results.failed.length =
      (["db-1"] : List String).length)
    ∧ ((backup_s3_buckets (.ok [⟨"b", ["k"]⟩]) (fun _ _ => .ok ())
        "bb" "p" "d").results.success.length +
      (backup_s3_buckets (.ok [⟨"b", ["k"]⟩]) (fun _ _ => .ok ())
        "bb" "p" "d").results.failed.length =
      ([⟨"b", ["k"]⟩] : List S3BucketSrc).length) :=
  c2_batch_outcome_sizes_amended
    (.discoverRunning (.ok [⟨"i-1", ["v-1", "v-2"]⟩]))
    (fun _ v => .ok ("snap-" ++ v)) 50 "d" "dc"
    (fun id => some ⟨id⟩) ["db-1"] (fun _ => .ok ())
    [⟨"b", ["k"]⟩] (fun _ _ => .ok ()) "bb" "p"
    [⟨"i-1", ["v-1", "v-2"]⟩] rfl

/-- Counterexample to C2 as stated: one considered EC2 instance (resolution
returns exactly one instance, with two volumes, both snapshots succeeding)
produces len(success) + len(failed) = 2 > 1 = number of considered
resources, because the success list is per volume. -/
theorem c2_batch_outcome_sizes_counterexample :
    resolveEC2Targets (.explicitIds
        (fun id => if id == "i-1" then some ⟨"i-1", ["v-1", "v-2"]⟩ else none)
        ["i-1"]) = .ok [⟨"i-1", ["v-1", "v-2"]⟩]
    ∧ (backup_ec2_instances (.explicitIds
        (fun id => if id == "i-1" then some ⟨"i-1", ["v-1", "v-2"]⟩ else none)
        ["i-1"]) (fun _ v => .ok ("snap-" ++ v)) 50 "d").results.success.length +
      (backup_ec2_instances (.explicitIds
        (fun id => if id == "i-1" then some ⟨"i-1", ["v-1", "v-2"]⟩ else none)
        ["i-1"]) (fun _ v => .ok ("snap-" ++ v)) 50 "d").results.failed.length = 2 := by
  exact ⟨rfl, rfl⟩

/-- C4 (amended): the pipeline summary's totals are the sums of the success
and failed list lengths of the three category outcomes ONLY — the cleanup
tally is reported separately in `cleanup_results` and never added — and
`backup_status` is "SUCCESS" iff `total_failed_backups = 0`, otherwise
"PARTIAL_FAILURE". -/
theorem c4_pipeline_summary_amended (env : PipelineEnv) :
    (run_full_backup env).summary.total_successful_backups =
        (run_full_backup env).ec2_results.success.length +
        (run_full_backup env).rds_results.success.length +
        (run_full_backup env).s3_results.success.length
    ∧ (run_full_backup env).summary.total_failed_backups =
        (run_full_backup env).ec2_results.failed.length +
        (run_full_backup env).rds_results.failed.length +
        (run_full_backup env).s3_results.failed.length
    ∧ ((run_full_backup env).summary.backup_status = "SUCCESS" ↔
        (run_full_backup env).summary.total_failed_backups = 0)
    ∧ ((run_full_backup env).summary.backup_status = "PARTIAL_FAILURE" ↔
        (run_full_backup env).summary.total_failed_backups ≠ 0) := by
  simp only [run_full_backup]
  refine ⟨trivial, trivial, ?_, ?_⟩
  · split
    · simp_all
    · simp_all
  · split
    · simp_all
    · simp_all

/-- Counterexample to C4 as stated: a run with no resources to back up but
one expired tagged snapshot cleaned up yields a cleanup tally of 1 while
`total_successful_backups` stays 0 — the totals do not include the cleanup
tally. -/
theorem c4_pipeline_summary_counterexample :
    (run_full_backup c4Env).cleanup_results.ec2_snapshots_deleted = 1
    ∧ (run_full_backup c4Env).summary.total_successful_backups = 0
    ∧ ¬ ((run_full_backup c4Env).summary.total_successful_backups =
        (run_full_backup c4Env).ec2_results.success.length +
        (run_full_backup c4Env).rds_results.success.length +
        (run_full_backup c4Env).s3_results.success.length +
        (run_full_backup c4Env).cleanup_results.ec2_snapshots_deleted +
        (run_full_backup c4Env).cleanup_results.rds_snapshots_deleted +
        (run_full_backup c4Env).cleanup_results.s3_objects_deleted) := by
  decide

theorem resolveRdsIds_misses (tbl : String → Option RDSInstance)
    (ids : List String) (id : String) (hm : id ∈ ids) (hn : tbl id = none) :
    (⟨some id, rdsLookupError id⟩ : RDSFailureRecord) ∈ (resolveRdsIds tbl ids).2 := by
  induction ids with
  | nil => simp at hm
  | cons i rest ih =>
    rcases List.mem_cons.mp hm with he | he
    · rw [he] at hn
      rw [he]
      simp [resolveRdsIds, hn]
    · cases hc : tbl i with
      | some db =>
        simp only [resolveRdsIds, hc]
        exact ih he
      | none =>
        simp only [resolveRdsIds, hc, List.mem_cons]
        exact Or.inr (ih he)

theorem resolveRdsIds_hits (tbl : String → Option RDSInstance)
    (ids : List String) (id : String) (db : RDSInstance)
    (hm : id ∈ ids) (hs : tbl id = some db) :
    db ∈ (resolveRdsIds tbl ids).1 := by
  induction ids with
  | nil => simp at hm
  | cons i rest ih =>
    rcases List.mem_cons.mp hm with he | he
    · rw [he] at hs
      simp [resolveRdsIds, hs]
    · cases hc : tbl i with
      | some db2 =>
        simp only [resolveRdsIds, hc, List.mem_cons]
        exact Or.inr (ih he)
      | none =>
        simp only [resolveRdsIds, hc]
        exact ih he

theorem rdsBackupLoop_success_mem (cs : String → Except String Unit)
    (now : Int) (d dc : String) (dbs : List RDSInstance) (db : RDSInstance)
    (hm : db ∈ dbs) (hok : cs db.dbInstanceIdentifier = .ok ()) :
    (⟨db.dbInstanceIdentifier, rdsSnapshotName db.dbInstanceIdentifier dc⟩ :
      RDSSuccessRecord) ∈ (rdsBackupLoop cs now d dc dbs).1 := by
  induction dbs with
  | nil => simp at hm
  | cons x rest ih =>
    rcases List.mem_cons.mp hm with he | he
    · rw [he] at hok ⊢
      simp [rdsBackupLoop, hok]
    · cases hc : cs x.dbInstanceIdentifier with
      | ok u =>
        simp only [rdsBackupLoop, hc, List.mem_cons]
        exact Or.inr (ih he)
      | error e =>
        simp only [rdsBackupLoop, hc]
        exact ih he

theorem describeInstancesBulk_error (tbl : String → Option EC2Instance)
    (ids : List String) (id : String) (hm : id ∈ ids) (hn : tbl id = none) :
    ∃ e, describeInstancesBulk tbl ids = .error e := by
  induction ids with
  | nil => simp at hm
  | cons i rest ih =>
    rcases List.mem_cons.mp hm with he | he
    · rw [he] at hn
      exact ⟨"InvalidInstanceID.NotFound: " ++ i, by simp [describeInstancesBulk, hn]⟩
    · cases hc : tbl i with
      | none => exact ⟨"InvalidInstanceID.NotFound: " ++ i, by simp [describeInstancesBulk, hc]⟩
      | some inst =>
        rcases ih he with ⟨e, hee⟩
        refine ⟨e, ?_⟩
        simp [describeInstancesBulk, hc, hee]

/-- C5 (amended): for the RDS batch with explicit ids, a failed lookup of
one id yields a FailureRecord for that id alone and the remaining resolvable
ids are still backed up; but for the EC2 batch the explicit ids go through
one bulk describe call, so one bad id collapses the whole batch to a single
id-less failure record with no successes. -/
theorem c5_explicit_id_lookup_amended
    (tbl : String → Option RDSInstance) (ids : List String)
    (cs : String → Except String Unit) (now : Int) (d dc : String)
    (tblE : String → Option EC2Instance) (idsE : List String)
    (csE : String → String → Except String String)
    (idBad : String) (hm : idBad ∈ idsE) (hnone : tblE idBad = none) :
    (∀ id, id ∈ ids → tbl id = none →
        (⟨some id, rdsLookupError id⟩ : RDSFailureRecord) ∈
          (backup_rds_databases (.explicitIds tbl ids) cs now d dc).results.failed)
    ∧ (∀ id db, id ∈ ids → tbl id = some db → cs db.dbInstanceIdentifier = .ok () →
        (⟨db.dbInstanceIdentifier, rdsSnapshotName db.dbInstanceIdentifier dc⟩ :
          RDSSuccessRecord) ∈
          (backup_rds_databases (.explicitIds tbl ids) cs now d dc).results.success)
    ∧ (backup_ec2_instances (.explicitIds tblE idsE) csE now d).results.success = []
    ∧ (backup_ec2_instances (.explicitIds tblE idsE) csE now d).results.failed.length = 1
    ∧ (∀ f, f ∈ (backup_ec2_instances (.explicitIds tblE idsE) csE now d).results.failed →
        f.instance_id = none) := by
  rcases describeInstancesBulk_error tblE idsE idBad hm hnone with ⟨e, he⟩
  have hres : resolveEC2Targets (.explicitIds tblE idsE) = .error e := he
  refine ⟨?_, ?_, ?_, ?_, ?_⟩
  · intro id hmem hn
    simp only [backup_rds_databases, List.mem_append]
    exact Or.inl (resolveRdsIds_misses tbl ids id hmem hn)
  · intro id db hmem hs hok
    simp only [backup_rds_databases]
    exact rdsBackupLoop_success_mem cs now d dc (resolveRdsIds tbl ids).1 db
      (resolveRdsIds_hits tbl ids id db hmem hs) hok
  · simp [backup_ec2_instances, hres]
  · simp [backup_ec2_instances, hres]
  · intro f hf
    simp only [backup_ec2_instances, hres, List.mem_singleton] at hf
    rw [hf]

/-- Witness for C5 (amended): ids ["db-1", "db-2"] where "db-2" does not
resolve: "db-2" gets its own failure record and "db-1" is still backed up;
for EC2, ids ["i-1", "i-2"] with "i-2" unknown yield no successes and a
single id-less failure. -/
theorem c5_explicit_id_lookup_amended_witness :
    (⟨some "db-2", rdsLookupError "db-2"⟩ : RDSFailureRecord) ∈
      (backup_rds_databases
        (.explicitIds (fun id => if id == "db-2" then none else some ⟨id⟩)
          ["db-1", "db-2"])
        (fun _ => .ok ()) 50 "d" "dc").results.failed
    ∧ (⟨"db-1", rdsSnapshotName "db-1" "dc"⟩ : RDSSuccessRecord) ∈
      (backup_rds_databases
        (.explicitIds (fun id => if id == "db-2" then none else some ⟨id⟩)
          ["db-1", "db-2"])
        (fun _ => .ok ()) 50 "d" "dc").results.success
    ∧ (backup_ec2_instances
        (.explicitIds (fun id => if id == "i-1" then some ⟨"i-1", ["v-1"]⟩ else none)
          ["i-1", "i-2"])
        (fun _ v => .ok ("snap-" ++ v)) 50 "d").results.success = [] := by
  have h := c5_explicit_id_lookup_amended
    (fun id => if id == "db-2" then none else some ⟨id⟩) ["db-1", "db-2"]
    (fun _ => .ok ()) 50 "d" "dc"
    (fun id => if id == "i-1" then some ⟨"i-1", ["v-1"]⟩ else none) ["i-1", "i-2"]
    (fun _ v => .ok ("snap-" ++ v)) "i-2" (by decide) (by decide)
  refine ⟨h.1 "db-2" (by decide) (by decide),
    h.2.1 "db-1" ⟨"db-1"⟩ ?_ ?_ ?_, h.2.2.1⟩
  · decide
  · decide
  · rfl

/-- Counterexample to C5 as stated: EC2 batch over ids ["i-good", "i-bad"]
where only "i-good" exists — the whole batch collapses to one id-less
failure record and "i-good" is NOT backed up, instead of a per-id
FailureRecord for "i-bad" with the rest proceeding. -/
theorem c5_explicit_id_lookup_counterexample :
    (backup_ec2_instances
      (.explicitIds (fun id => if id == "i-good" then some ⟨"i-good", ["v-1"]⟩ else none)
        ["i-good", "i-bad"])
      (fun _ v => .ok ("snap-" ++ v)) 50 "d").results =
      ⟨[], [⟨none, "InvalidInstanceID.NotFound: i-bad"⟩]⟩ := by
  rfl
